import Mathlib

/-!
Verification development for the `HyperCardCreator` component of the
santa-bonfire repository (the spec's PaymentAuthorizer / JobSubmitter /
JobLifecycleTracker core).

The component is a single-threaded, timer-driven React component.  We embed
it as an explicit event system: the component state is a record, the
asynchronous world (the interval timer, in-flight fetches, the suspended
`startPolling` invocation awaiting its first poll) is carried alongside it
in a `Sys` record, and an execution is a list of events folded through a
`step` function.  Every definition is translated from the source file
(`HyperCardCreator.tsx`); deviations forced by the embedding are noted in
doc comments.  JS strings are modelled as Lean `String` (the inputs used in
witnesses are ASCII, where JS UTF-16 length and Lean char length agree),
and JS numbers that hold prices are modelled as `ℚ`.
-/

namespace SantaBonfire

/-- Opaque HTN progress payload (`HyperBlogHTNProgress`); the component only
stores, forwards and clears it, so its contents are irrelevant and it is
embedded as a string. -/
abbrev HTNProgress := String

/-- The slice of `HyperBlogInfo` the poll handler reads: the raw status
string, the optional HTN progress payload, and the result fields. -/
structure HyperBlogInfo where
  generation_status : String
  htn_progress : Option HTNProgress
  word_count : Option Nat
  preview : Option String
  deriving DecidableEq

/-- Listener-visible notifications: `notification.success`,
`notification.error`, `notification.info` and the `onSuccess` callback. -/
inductive Notif where
  | success (msg : String)
  | error (msg : String)
  | info (msg : String)
  | onSuccessCallback (id : String)
  deriving DecidableEq

/-- The component (React) state of `HyperCardCreator` that the polling
claims touch, one field per `useState` hook. -/
structure TrackerState where
  userQuery : String
  isPublic : Bool
  isLoading : Bool
  error : Option String
  hypercardId : Option String
  generationStatus : String
  wordCount : Option Nat
  preview : Option String
  htnProgress : Option HTNProgress
  showProgressModal : Bool
  deriving DecidableEq

/-- The state installed by the reset effect (`useEffect` on `!isOpen`),
which is also the initial state of the hooks. -/
def initTracker : TrackerState :=
  { userQuery := ""
    isPublic := true
    isLoading := false
    error := none
    hypercardId := none
    generationStatus := "idle"
    wordCount := none
    preview := none
    htnProgress := none
    showProgressModal := false }

/-- An in-flight `fetch` issued by `pollStatus`.  `jobId` is the
`hypercardIdToCheck` the closure captured (it determines the URL), `userQ`
the `userQuery` the closure captured (it determines the completion
message), `reqId` identifies which pending promise a response resolves. -/
structure Req where
  reqId : Nat
  jobId : String
  userQ : String
  deriving DecidableEq

/-- The live `setInterval` handle: the job id and user query captured by the
`pollStatus` closure it will invoke, and its period in milliseconds. -/
structure IntervalInfo where
  jobId : String
  userQ : String
  periodMs : Nat
  deriving DecidableEq

/-- A `startPolling` invocation suspended at `await pollStatus()`: when the
request `reqId` resolves, the invocation resumes and installs the
interval. -/
structure PendingInfo where
  reqId : Nat
  jobId : String
  userQ : String
  deriving DecidableEq

/-- The whole system: component state plus the asynchronous world.
`notifs`, `logs` and `fetchLog` are append-only histories of the
notifications emitted, the console entries written, and the job ids of the
poll requests issued. -/
structure Sys where
  tracker : TrackerState
  intervalJob : Option IntervalInfo
  pendingStart : Option PendingInfo
  inFlight : List Req
  nextReqId : Nat
  notifs : List Notif
  fetchLog : List String
  logs : List String
  deriving DecidableEq

/-- The initial system: fresh component, no timer, nothing in flight. -/
def initSys : Sys :=
  { tracker := initTracker
    intervalJob := none
    pendingStart := none
    inFlight := []
    nextReqId := 0
    notifs := []
    fetchLog := []
    logs := [] }

/-- How a poll request resolves: a 2xx response with a parsed body, a
non-2xx response (`!response.ok`), or a thrown network error. -/
inductive PollResponse where
  | ok (data : HyperBlogInfo)
  | notOk (statusText : String)
  | netError (msg : String)
  deriving DecidableEq

/-- `userQuery.length > 60 ? userQuery.substring(0, 60) + "..." : userQuery`
from the completed branch of `pollStatus`. -/
def truncatedQuery (uq : String) : String :=
  if uq.length > 60 then uq.take 60 ++ "..." else uq

/-- The net effect of the body of `pollStatus` on a parsed 2xx response. -/
structure PollEffect where
  tracker : TrackerState
  notifs : List Notif
  logs : List String
  stopped : Bool
  deriving DecidableEq

/-- `setHtnProgress(data.htn_progress)` guarded by `if (data.htn_progress)`:
the stored snapshot is replaced when the payload is present, kept
otherwise. -/
def updatedProgress (t : TrackerState) (d : HyperBlogInfo) : Option HTNProgress :=
  match d.htn_progress with
  | some p => some p
  | none => t.htnProgress

/-- The `console.log` the progress guard writes. -/
def htnLogs (d : HyperBlogInfo) : List String :=
  match d.htn_progress with
  | some _ => ["HTN progress received"]
  | none => []

/-- The body of `pollStatus` after `response.json()` succeeds, lines
131-160 of the source: store the raw status, store the progress payload
when present, then branch on the status string.  `stopped` records whether
the branch called `stopPolling()`. -/
def pollStatusOk (jobId uq : String) (t : TrackerState) (d : HyperBlogInfo) : PollEffect :=
  let t2 : TrackerState :=
    { t with generationStatus := d.generation_status, htnProgress := updatedProgress t d }
  let logs1 : List String := htnLogs d
  if d.generation_status = "generating" then
    { tracker := { t2 with showProgressModal := true }
      notifs := []
      logs := logs1
      stopped := false }
  else if d.generation_status = "completed" then
    { tracker :=
        { t2 with
          wordCount := d.word_count
          preview := d.preview
          showProgressModal := false
          htnProgress := none }
      notifs :=
        [Notif.success ("🎁 Card completed: \"" ++ truncatedQuery uq ++ "\"!"),
         Notif.onSuccessCallback jobId]
      logs := logs1
      stopped := true }
  else if d.generation_status = "failed" then
    { tracker :=
        { t2 with
          showProgressModal := false
          htnProgress := none
          error := some "Card creation failed. Please try again." }
      notifs := [Notif.error "Card creation failed"]
      logs := logs1
      stopped := true }
  else
    { tracker := t2, notifs := [], logs := logs1, stopped := false }

/-- Remove the request `rid` from the in-flight list (its promise has
resolved). -/
def removeReq (s : Sys) (rid : Nat) : Sys :=
  { s with inFlight := s.inFlight.filter (fun q => q.reqId != rid) }

/-- Consume a resolved poll response: the `!response.ok` early return and
the `catch` arm only log; a parsed body runs `pollStatusOk`, whose
`stopped` flag corresponds to `stopPolling()` clearing the interval. -/
def respondCore (s : Sys) (r : Req) (resp : PollResponse) : Sys :=
  match resp with
  | .notOk st =>
      { s with logs := s.logs ++ ["Failed to fetch card status: " ++ st] }
  | .netError m =>
      { s with logs := s.logs ++ ["Error polling card status: " ++ m] }
  | .ok d =>
      let pe := pollStatusOk r.jobId r.userQ s.tracker d
      { s with
        tracker := pe.tracker
        notifs := s.notifs ++ pe.notifs
        logs := s.logs ++ pe.logs
        intervalJob := if pe.stopped then none else s.intervalJob }

/-- If a `startPolling` invocation was awaiting exactly this request, it
resumes now and runs `pollingIntervalRef.current = setInterval(pollStatus,
5000)` — unconditionally, whatever the response was. -/
def applyResume (rid : Nat) (s : Sys) : Sys :=
  match s.pendingStart with
  | some p =>
      if p.reqId = rid then
        { s with
          intervalJob := some { jobId := p.jobId, userQ := p.userQ, periodMs := 5000 }
          pendingStart := none }
      else s
  | none => s

/-- Does the suspended `startPolling` (if any) await request `rid`? -/
def pendingMatches (s : Sys) (rid : Nat) : Bool :=
  match s.pendingStart with
  | some p => p.reqId == rid
  | none => false

/-- The events that can happen to the system.  `start` is
`startPolling(jobId)` being invoked (from `handleSubmit`); `tick` is the
interval timer firing; `respond` is an in-flight request resolving;
`stop` is `stopPolling()`; `close` is `handleClose` (stopPolling, then
`onClose` flips `isOpen` and the reset effect runs). -/
inductive Event where
  | start (jobId : String)
  | tick
  | respond (rid : Nat) (resp : PollResponse)
  | stop
  | close
  deriving DecidableEq

/-- One step of the system.  Translated from the source:
`startPolling` clears any existing interval, calls `pollStatus` once
immediately (issuing its fetch) and suspends at the `await`; a `tick`
invokes the interval's `pollStatus`, which immediately issues a fetch —
with no check whether an earlier request is still outstanding; a response
runs the rest of `pollStatus` and then resumes a suspended `startPolling`
awaiting it; `stopPolling` clears the interval; `close` additionally runs
the reset effect (neither aborts in-flight fetches nor cancels the
suspended invocation). -/
def step (s : Sys) : Event → Sys
  | .start j =>
      let r : Req := { reqId := s.nextReqId, jobId := j, userQ := s.tracker.userQuery }
      { s with
        intervalJob := none
        inFlight := s.inFlight ++ [r]
        fetchLog := s.fetchLog ++ [j]
        nextReqId := s.nextReqId + 1
        pendingStart := some { reqId := r.reqId, jobId := j, userQ := r.userQ } }
  | .tick =>
      match s.intervalJob with
      | none => s
      | some iv =>
          let r : Req := { reqId := s.nextReqId, jobId := iv.jobId, userQ := iv.userQ }
          { s with
            inFlight := s.inFlight ++ [r]
            fetchLog := s.fetchLog ++ [iv.jobId]
            nextReqId := s.nextReqId + 1 }
  | .respond rid resp =>
      match s.inFlight.find? (fun q => q.reqId == rid) with
      | none => s
      | some r => applyResume rid (respondCore (removeReq s rid) r resp)
  | .stop => { s with intervalJob := none }
  | .close => { s with intervalJob := none, tracker := initTracker }

/-- Fold a list of events through `step`. -/
def run (s : Sys) (es : List Event) : Sys :=
  es.foldl step s

/-- Number of outstanding (in-flight) poll requests for a given job id. -/
def outstanding (s : Sys) (j : String) : Nat :=
  (s.inFlight.filter (fun q => q.jobId == j)).length

/-- Is this event a `startPolling` invocation? -/
def isStart : Event → Bool
  | .start _ => true
  | _ => false

/-- Is this response a transient failure (network error or non-2xx)? -/
def isTransient : PollResponse → Bool
  | .ok _ => false
  | .notOk _ => true
  | .netError _ => true

/-!
The submission path of `handleSubmit` (lines 177-221 of the source), up to
and including the hand-off to the external payment signer.  Prices are
modelled as `ℚ`; the parsed `current_hyperblog_price_usd` field is an
`Option ℚ` whose `none` covers the field being absent, empty (falsy) or
unparsable (`parseFloat` returning `NaN`, which fails the `> 0` test the
same way `0` does).
-/

/-- JavaScript `String.prototype.trim`, embedded on the character list
(`Char.isWhitespace` standing in for the JS whitespace class; all inputs of
interest are ASCII). -/
def jsTrim (s : String) : String :=
  ⟨((s.data.dropWhile Char.isWhitespace).reverse.dropWhile Char.isWhitespace).reverse⟩

/-- The two digits after the decimal point that `toFixed(2)` prints for a
hundredth-count `m` (`m` is the scaled value modulo 100). -/
def twoDigitFrac (m : Nat) : String :=
  String.mk [Nat.digitChar (m / 10 % 10), Nat.digitChar (m % 10)]

/-- The number of hundredths `toFixed(2)` rounds a value to: the integer
`n` with `n / 100` closest to the value, larger `n` on ties (ECMA-262),
that is `⌊q * 100 + 1/2⌋`, computed here directly on the canonical
numerator and denominator (see `roundedCents_eq_floor`). -/
def roundedCents (q : ℚ) : Int :=
  (200 * q.num + (q.den : Int)) / (2 * (q.den : Int))

/-- JavaScript `Number.prototype.toFixed(2)` on an exact rational: round to
hundredths, then print with exactly two fractional digits. -/
def toFixed2 (q : ℚ) : String :=
  let n : Int := roundedCents q
  (if n < 0 then "-" else "") ++ Nat.repr (n.natAbs / 100) ++ "." ++ twoDigitFrac (n.natAbs % 100)

/-- The inputs `handleSubmit` reads: wallet connection, the form state, the
component props, and the outcome of the dataroom-details fetch should it be
needed (`dataroomFetchOk` false models a non-2xx response there). -/
structure SubmitEnv where
  isConnected : Bool
  address : Option String
  userQuery : String
  dataroomId : String
  dataroomPrice : Option ℚ
  dataroomFetchOk : Bool
  fetchedCurrentPrice : Option ℚ
  fetchedBasePrice : ℚ

/-- The externally visible effects of the pre-purchase part of
`handleSubmit`, in order of occurrence. -/
inductive SubmitEffect where
  | fetchDataroomDetails (dataroomId : String)
  | signPayment (amount : String)
  | notifyInfo (msg : String)
  | notifyError (msg : String)
  deriving DecidableEq

/-- Is this effect a network call or an external signer invocation? -/
def isNetworkOrSigner : SubmitEffect → Bool
  | .fetchDataroomDetails _ => true
  | .signPayment _ => true
  | _ => false

/-- How the pre-purchase part of `handleSubmit` ends: the wallet guard, the
silent validation early-return (line 185), the dataroom fetch throwing, or
reaching `buildAndSignPaymentHeader` with an amount string. -/
inductive SubmitPreOutcome where
  | walletNotConnected
  | validationRejected
  | dataroomFetchFailed
  | proceedToSigner (amount : String)
  deriving DecidableEq

/-- The `else` branch of the price calculation: fetch the dataroom details,
use the parsed `current_hyperblog_price_usd` when it is `> 0`, otherwise
fall back to `price_usd` (lines 199-210). -/
def fetchPriceBranch (env : SubmitEnv) : SubmitPreOutcome × List SubmitEffect :=
  if env.dataroomFetchOk = false then
    (.dataroomFetchFailed, [.fetchDataroomDetails env.dataroomId])
  else
    let dynamicPrice : ℚ := env.fetchedCurrentPrice.getD 0
    let priceUsd : ℚ := if dynamicPrice > 0 then dynamicPrice else env.fetchedBasePrice
    (.proceedToSigner (toFixed2 priceUsd),
      [.fetchDataroomDetails env.dataroomId,
       .notifyInfo "🔐 Signing payment...",
       .signPayment (toFixed2 priceUsd)])

/-- Lines 177-217 of the source: the wallet guard, the defensive length
re-check (`userQuery.trim().length < 3 || userQuery.length > 500`, a silent
`return`), the effective-price resolution
(`dataroomPrice !== undefined && dataroomPrice > 0` or else the dataroom
fetch), `toFixed(2)` formatting, and the hand-off to
`buildAndSignPaymentHeader`. -/
def handleSubmitPre (env : SubmitEnv) : SubmitPreOutcome × List SubmitEffect :=
  if ¬ (env.isConnected = true ∧ env.address.isSome = true) then
    (.walletNotConnected, [.notifyError "Please connect your wallet"])
  else if (jsTrim env.userQuery).length < 3 ∨ env.userQuery.length > 500 then
    (.validationRejected, [])
  else
    match env.dataroomPrice with
    | some p =>
        if p > 0 then
          (.proceedToSigner (toFixed2 p),
            [.notifyInfo "🔐 Signing payment...", .signPayment (toFixed2 p)])
        else fetchPriceBranch env
    | none => fetchPriceBranch env

/-- The price selection exactly as the specification words it: the
caller-supplied quoted price when it is defined and strictly greater than
zero; otherwise the target resource's current metadata price when that is
positive; otherwise the resource's static base price.  Written from the
spec, to be compared with the price `handleSubmitPre` computes. -/
def effectivePriceSpec (quoted metaCur : Option ℚ) (basePrice : ℚ) : ℚ :=
  match quoted with
  | some p => if p > 0 then p else (match metaCur with
      | some c => if c > 0 then c else basePrice
      | none => basePrice)
  | none =>
      match metaCur with
      | some c => if c > 0 then c else basePrice
      | none => basePrice

/-!
The payment authorizer.  The repository's `usePaymentHeader` hook, which
implements `buildAndSignPaymentHeader` (the spec's
`PaymentAuthorizer.authorize`), is not among the source files; only its
caller `handleSubmit` is.  Its behaviour is therefore modelled from the
specification.
-/

/-- The authorization failure taxonomy of spec section 4.1. -/
inductive AuthFailure where
  | invalidAmount
  | userRejected
  | signingFailed
  deriving DecidableEq

/-- How the external wallet signer can resolve. -/
inductive SignerOutcome where
  | signed (artifact : String)
  | cancelled
  | failed (msg : String)
  deriving DecidableEq

/-- Modelled from the spec: `buildAndSignPaymentHeader` of the
`usePaymentHeader` hook (spec section 4.1, `PaymentAuthorizer.authorize`)
is missing from the source tree.  Per the spec it fails with
`InvalidAmount` when the amount is not strictly positive (non-numeric
amounts are the `none` case), making no external call of any kind in that
case; otherwise it formats the amount to exactly two fractional digits and
hands it to the external signer, mapping a cancellation to `UserRejected`
and any other signer error to `SigningFailed`.  The second component of the
result lists the amounts handed to the external signer, in order. -/
def authorize (amountUsd : Option ℚ) (signer : String → SignerOutcome) :
    Except AuthFailure String × List String :=
  match amountUsd with
  | none => (.error .invalidAmount, [])
  | some a =>
      if a ≤ 0 then (.error .invalidAmount, [])
      else
        let amt := toFixed2 a
        match signer amt with
        | .signed art => (.ok art, [amt])
        | .cancelled => (.error .userRejected, [amt])
        | .failed _ => (.error .signingFailed, [amt])

/-!
Concrete poll bodies used in witnesses and counterexamples, and the
formal statements of the spec claims that turn out to fail on the code.
-/

/-- A poll body reporting `generating`, without progress payload. -/
def genData : HyperBlogInfo :=
  { generation_status := "generating", htn_progress := none, word_count := none, preview := none }

/-- A poll body reporting `completed` with a result. -/
def completedData : HyperBlogInfo :=
  { generation_status := "completed", htn_progress := none,
    word_count := some 420, preview := some "Ho ho ho" }

/-- A poll body reporting `failed`. -/
def failedData : HyperBlogInfo :=
  { generation_status := "failed", htn_progress := none, word_count := none, preview := none }

/-- A poll body with a status string outside the recognized enumeration. -/
def queuedData : HyperBlogInfo :=
  { generation_status := "queued", htn_progress := none, word_count := none, preview := none }

/-- Number of success notifications emitted so far. -/
def successCount (s : Sys) : Nat :=
  (s.notifs.filter fun n => match n with | .success _ => true | _ => false).length

/-- The tracker has been reset, or tracks a different job than the request
was issued for. -/
abbrev trackerResetOrSwitched (s : Sys) (r : Req) : Prop :=
  (s.tracker.generationStatus = "idle" ∧ s.tracker.hypercardId = none) ∨
    s.tracker.hypercardId ≠ some r.jobId

/-- Claim C1 as stated: along every execution, at most one poll request is
outstanding per job id. -/
def pollExclusivityClaim : Prop :=
  ∀ (es : List Event) (j : String), outstanding (run initSys es) j ≤ 1

/-- Claim C2 as stated: a poll response consumed after the tracker has been
reset, or after it has switched to a different job id than the one the
request was issued for, mutates neither the tracker state nor the
notification history. -/
def staleResponseClaim : Prop :=
  ∀ (es : List Event) (rid : Nat) (r : Req) (d : HyperBlogInfo),
    (run initSys es).inFlight.find? (fun q => q.reqId == rid) = some r →
    trackerResetOrSwitched (run initSys es) r →
    (step (run initSys es) (Event.respond rid (PollResponse.ok d))).tracker =
        (run initSys es).tracker ∧
      (step (run initSys es) (Event.respond rid (PollResponse.ok d))).notifs =
        (run initSys es).notifs


/-- Concrete submission environment whose theme text is 501 characters. -/
def env501 : SubmitEnv :=
  { isConnected := true
    address := some "0xabc"
    userQuery := String.mk (List.replicate 501 'a')
    dataroomId := "dr1"
    dataroomPrice := some (mkRat 999 100)
    dataroomFetchOk := true
    fetchedCurrentPrice := none
    fetchedBasePrice := mkRat 5 1 }

/-- Concrete submission environment with a valid theme and a quoted price
of 9.99 USD. -/
def envQuoted : SubmitEnv :=
  { isConnected := true
    address := some "0xabc"
    userQuery := "A warm holiday greeting"
    dataroomId := "dr1"
    dataroomPrice := some (mkRat 999 100)
    dataroomFetchOk := true
    fetchedCurrentPrice := none
    fetchedBasePrice := mkRat 5 1 }

/-!
Helper lemmas about the embedding.
-/

/-- The rounding of `toFixed2` really is `⌊q * 100 + 1/2⌋`, the ECMA-262
choice of the closest hundredth, larger on ties. -/
theorem roundedCents_eq_floor (q : ℚ) : roundedCents q = ⌊(q * 100 + 1/2 : ℚ)⌋ := by
  have hden : ((q.den : ℚ)) ≠ 0 := by
    exact_mod_cast q.den_nz
  have key : q * (q.den : ℚ) = (q.num : ℚ) := by
    nth_rewrite 1 [← Rat.num_div_den q]
    exact div_mul_cancel₀ _ hden
  have hden2 : (((2 * q.den : ℕ) : ℚ)) ≠ 0 := by
    push_cast
    simp [hden]
  have hq : (q * 100 + 1/2 : ℚ) =
      ((200 * q.num + (q.den : Int) : Int) : ℚ) / ((2 * q.den : ℕ) : ℚ) := by
    rw [eq_div_iff hden2]
    push_cast
    linear_combination (200 : ℚ) * key
  rw [hq, Rat.floor_intCast_div_natCast]
  unfold roundedCents
  norm_cast

/-- Unfolding `step` on a response whose request is found in flight. -/
theorem step_respond_found (s : Sys) (rid : Nat) (r : Req) (resp : PollResponse)
    (h : s.inFlight.find? (fun q => q.reqId == rid) = some r) :
    step s (Event.respond rid resp) = applyResume rid (respondCore (removeReq s rid) r resp) := by
  simp only [step, h]

/-- Resuming a suspended `startPolling` touches only the interval handle
and the suspension itself. -/
theorem applyResume_preserves (rid : Nat) (s : Sys) :
    (applyResume rid s).tracker = s.tracker ∧
      (applyResume rid s).notifs = s.notifs ∧
      (applyResume rid s).logs = s.logs ∧
      (applyResume rid s).fetchLog = s.fetchLog ∧
      (applyResume rid s).inFlight = s.inFlight ∧
      (applyResume rid s).nextReqId = s.nextReqId := by
  cases h : s.pendingStart with
  | none => simp [applyResume, h]
  | some p =>
      simp only [applyResume, h]
      split <;> simp

/-- When no suspended `startPolling` awaits this request, resumption is a
no-op. -/
theorem applyResume_eq_self (rid : Nat) (s : Sys) (h : pendingMatches s rid = false) :
    applyResume rid s = s := by
  cases hp : s.pendingStart with
  | none => simp [applyResume, hp]
  | some p =>
      simp only [pendingMatches, hp, beq_eq_false_iff_ne, ne_eq] at h
      simp [applyResume, hp, h]

/-- When the suspended `startPolling` awaits exactly this request, it
installs the 5000 ms interval for its captured job. -/
theorem applyResume_interval_of_matches (rid : Nat) (s : Sys) (p : PendingInfo)
    (hp : s.pendingStart = some p) (h : p.reqId = rid) :
    (applyResume rid s).intervalJob =
      some { jobId := p.jobId, userQ := p.userQ, periodMs := 5000 } := by
  simp [applyResume, hp, h]

/-- Whatever the branch taken, `pollStatus` stores the raw status
string. -/
theorem pollStatusOk_status (j uq : String) (t : TrackerState) (d : HyperBlogInfo) :
    (pollStatusOk j uq t d).tracker.generationStatus = d.generation_status := by
  cases hd : d.htn_progress <;> simp only [pollStatusOk, hd] <;> split_ifs <;> rfl

/-- The `generating` branch of `pollStatus`. -/
theorem pollStatusOk_generating (j uq : String) (t : TrackerState) (d : HyperBlogInfo)
    (h : d.generation_status = "generating") :
    pollStatusOk j uq t d =
      { tracker :=
          { t with
            generationStatus := "generating"
            htnProgress := updatedProgress t d
            showProgressModal := true }
        notifs := []
        logs := htnLogs d
        stopped := false } := by
  simp [pollStatusOk, h]

/-- The `completed` branch of `pollStatus`. -/
theorem pollStatusOk_completed (j uq : String) (t : TrackerState) (d : HyperBlogInfo)
    (h : d.generation_status = "completed") :
    pollStatusOk j uq t d =
      { tracker :=
          { t with
            generationStatus := "completed"
            wordCount := d.word_count
            preview := d.preview
            showProgressModal := false
            htnProgress := none }
        notifs := [Notif.success ("🎁 Card completed: \"" ++ truncatedQuery uq ++ "\"!"),
                   Notif.onSuccessCallback j]
        logs := htnLogs d
        stopped := true } := by
  simp only [pollStatusOk, h]
  rw [if_neg (by decide)]
  simp

/-- The `failed` branch of `pollStatus`. -/
theorem pollStatusOk_failed (j uq : String) (t : TrackerState) (d : HyperBlogInfo)
    (h : d.generation_status = "failed") :
    pollStatusOk j uq t d =
      { tracker :=
          { t with
            generationStatus := "failed"
            showProgressModal := false
            htnProgress := none
            error := some "Card creation failed. Please try again." }
        notifs := [Notif.error "Card creation failed"]
        logs := htnLogs d
        stopped := true } := by
  simp only [pollStatusOk, h]
  rw [if_neg (by decide), if_neg (by decide)]
  simp

/-- The fall-through branch of `pollStatus` on an unrecognized status
string. -/
theorem pollStatusOk_other (j uq : String) (t : TrackerState) (d : HyperBlogInfo)
    (hg : d.generation_status ≠ "generating")
    (hc : d.generation_status ≠ "completed")
    (hf : d.generation_status ≠ "failed") :
    pollStatusOk j uq t d =
      { tracker :=
          { t with
            generationStatus := d.generation_status
            htnProgress := updatedProgress t d }
        notifs := []
        logs := htnLogs d
        stopped := false } := by
  simp [pollStatusOk, hg, hc, hf]

/-!
The claims.
-/

/-- C1: the spec asserts that at most one status-poll request is
outstanding per job id, a tick firing while the previous request is still
outstanding being skipped.  The code has no such guard: `setInterval`
invokes `pollStatus` every period regardless of the earlier fetch still
being pending, so after two ticks with no intervening response two
requests for the same job are outstanding at once. -/
theorem C1_counterexample : ¬ pollExclusivityClaim := by
  intro h
  exact absurd
    (h [Event.start "a", Event.respond 0 (PollResponse.ok genData), Event.tick, Event.tick] "a")
    (by decide)

/-- C1 (amended): every interval tick issues a new status request
unconditionally — the in-flight list grows by one request for the
interval's job, whatever is already outstanding, so the number of
outstanding requests per job is not bounded by one. -/
theorem C1_amended (s : Sys) (iv : IntervalInfo) (h : s.intervalJob = some iv) :
    (step s Event.tick).inFlight =
        s.inFlight ++ [{ reqId := s.nextReqId, jobId := iv.jobId, userQ := iv.userQ }] ∧
      (step s Event.tick).fetchLog = s.fetchLog ++ [iv.jobId] ∧
      outstanding (step s Event.tick) iv.jobId = outstanding s iv.jobId + 1 := by
  refine ⟨by simp [step, h], by simp [step, h], ?_⟩
  simp [step, h, outstanding, List.filter_append]

/-- Witness for the amended C1 at a concrete reachable state with an
installed interval. -/
theorem C1_amended_witness :
    (run initSys [Event.start "a", Event.respond 0 (PollResponse.ok genData)]).intervalJob =
        some { jobId := "a", userQ := "", periodMs := 5000 } ∧
      outstanding
          (step (run initSys [Event.start "a", Event.respond 0 (PollResponse.ok genData)])
            Event.tick) "a" =
        outstanding (run initSys [Event.start "a", Event.respond 0 (PollResponse.ok genData)]) "a"
          + 1 :=
  ⟨by decide,
   (C1_amended (run initSys [Event.start "a", Event.respond 0 (PollResponse.ok genData)])
      { jobId := "a", userQ := "", periodMs := 5000 } (by decide)).2.2⟩

/-- C2: the spec asserts that a poll response reaching a reset (or
job-switched) tracker is discarded without mutating it.  The code has no
such guard: after the modal closes (reset), the still-pending response is
consumed by the unguarded `pollStatus` body and overwrites the tracker. -/
theorem C2_counterexample : ¬ staleResponseClaim := by
  intro h
  have h2 := h [Event.start "a", Event.close] 0 { reqId := 0, jobId := "a", userQ := "" }
    completedData (by decide) (by decide)
  exact absurd h2.1 (by decide)

/-- C2 (amended): a poll response is consumed with no job-id or reset
check at all — only the fetch URL is bound to the job id through the
closure.  Consuming a parsed response always overwrites the stored status
with the response's status, and a `completed` response always stores the
result and notifies, whatever the tracker currently holds. -/
theorem C2_amended (s : Sys) (rid : Nat) (r : Req) (d : HyperBlogInfo)
    (h : s.inFlight.find? (fun q => q.reqId == rid) = some r) :
    (step s (Event.respond rid (PollResponse.ok d))).tracker.generationStatus =
        d.generation_status ∧
      (d.generation_status = "completed" →
        (step s (Event.respond rid (PollResponse.ok d))).tracker.wordCount = d.word_count ∧
          (step s (Event.respond rid (PollResponse.ok d))).notifs =
            s.notifs ++
              [Notif.success ("🎁 Card completed: \"" ++ truncatedQuery r.userQ ++ "\"!"),
               Notif.onSuccessCallback r.jobId]) := by
  rw [step_respond_found s rid r _ h]
  constructor
  · rw [(applyResume_preserves rid _).1]
    simp only [respondCore]
    exact pollStatusOk_status _ _ _ _
  · intro hc
    constructor
    · rw [(applyResume_preserves rid _).1]
      simp only [respondCore]
      rw [pollStatusOk_completed _ _ _ _ hc]
    · rw [(applyResume_preserves rid _).2.1]
      simp only [respondCore]
      rw [pollStatusOk_completed _ _ _ _ hc]
      rfl

/-- Witness for the amended C2: the reset tracker of the C2 counterexample
trace is overwritten by the stale `completed` response. -/
theorem C2_amended_witness :
    (step (run initSys [Event.start "a", Event.close])
          (Event.respond 0 (PollResponse.ok completedData))).tracker.generationStatus =
        "completed" ∧
      (step (run initSys [Event.start "a", Event.close])
          (Event.respond 0 (PollResponse.ok completedData))).tracker.wordCount = some 420 :=
  ⟨(C2_amended (run initSys [Event.start "a", Event.close]) 0
      { reqId := 0, jobId := "a", userQ := "" } completedData (by decide)).1,
   ((C2_amended (run initSys [Event.start "a", Event.close]) 0
      { reqId := 0, jobId := "a", userQ := "" } completedData (by decide)).2 rfl).1⟩

/-- C3: after `stopPolling()` returns, with no new `startPolling`, a
further poll request can still originate: a `startPolling` invocation
suspended at its awaited first poll resumes afterwards and unconditionally
installs `setInterval`, whose tick issues a new request.  The trace issues
one request before `stop`, none at `stop`, and a second one after it.  The
idempotence half of the claim does hold: `stopPolling` twice equals
`stopPolling` once. -/
theorem C3_request_after_stop :
    (run initSys [Event.start "a", Event.stop]).fetchLog = ["a"] ∧
      (run initSys
          [Event.start "a", Event.stop, Event.respond 0 (PollResponse.ok genData),
           Event.tick]).fetchLog = ["a", "a"] ∧
      (∀ s : Sys, step (step s Event.stop) Event.stop = step s Event.stop) :=
  ⟨by decide, by decide, fun _ => rfl⟩

/-- On the main path — a terminal `completed` response consumed from an
interval tick, with no `startPolling` suspended on it — the tracker does
store the result, clear the progress snapshot, cancel the timer and notify
exactly once, as the spec describes; only the first-poll path of
`C4_first_poll_terminal_rearms` diverges. -/
theorem terminal_tick_response (s : Sys) (rid : Nat) (r : Req) (d : HyperBlogInfo)
    (h : s.inFlight.find? (fun q => q.reqId == rid) = some r)
    (hp : pendingMatches s rid = false) (hc : d.generation_status = "completed") :
    (step s (Event.respond rid (PollResponse.ok d))).intervalJob = none ∧
      (step s (Event.respond rid (PollResponse.ok d))).tracker.wordCount = d.word_count ∧
      (step s (Event.respond rid (PollResponse.ok d))).tracker.htnProgress = none ∧
      (step s (Event.respond rid (PollResponse.ok d))).notifs =
        s.notifs ++
          [Notif.success ("🎁 Card completed: \"" ++ truncatedQuery r.userQ ++ "\"!"),
           Notif.onSuccessCallback r.jobId] := by
  rw [step_respond_found s rid r _ h, applyResume_eq_self _ _ ?hpm]
  case hpm =>
    simp only [respondCore, removeReq]
    simpa [pendingMatches] using hp
  simp only [respondCore]
  rw [pollStatusOk_completed _ _ _ _ hc]
  refine ⟨by simp [removeReq], rfl, rfl, rfl⟩

/-- C4: when the immediate first poll issued by `startPolling` already
returns `completed`, the code stores the result and notifies once, but
`startPolling` then resumes from `await pollStatus()` and unconditionally
re-arms the 5000 ms interval, so the timer is not cancelled: the next tick
polls the finished job again and its response emits a second success
notification — against the claim's cancelled timer and exactly-once
notification. -/
theorem C4_first_poll_terminal_rearms :
    (run initSys [Event.start "a", Event.respond 0 (PollResponse.ok completedData)]).intervalJob =
        some { jobId := "a", userQ := "", periodMs := 5000 } ∧
      (run initSys
            [Event.start "a",
             Event.respond 0 (PollResponse.ok completedData)]).tracker.wordCount = some 420 ∧
      successCount (run initSys [Event.start "a", Event.respond 0 (PollResponse.ok completedData)]) = 1 ∧
      (run initSys
          [Event.start "a", Event.respond 0 (PollResponse.ok completedData), Event.tick,
           Event.respond 1 (PollResponse.ok completedData)]).fetchLog = ["a", "a"] ∧
      successCount
          (run initSys
            [Event.start "a", Event.respond 0 (PollResponse.ok completedData), Event.tick,
             Event.respond 1 (PollResponse.ok completedData)]) = 2 := by
  decide


/-- A transient response (non-2xx or thrown) only appends one console
entry. -/
theorem respondCore_transient (s : Sys) (r : Req) (resp : PollResponse)
    (ht : isTransient resp = true) :
    ∃ entry, respondCore s r resp = { s with logs := s.logs ++ [entry] } := by
  cases resp with
  | ok d => simp [isTransient] at ht
  | notOk st => exact ⟨_, rfl⟩
  | netError m => exact ⟨_, rfl⟩

/-- C5: a transient poll failure — a thrown network error or a non-2xx
response — leaves the component state and the notification history
untouched, appends exactly one console entry, issues nothing itself, does
not clear the interval (it is preserved, or freshly installed by a
resuming `startPolling`), and the next tick still issues its request. -/
theorem C5_transient_tolerated (s : Sys) (rid : Nat) (r : Req) (resp : PollResponse)
    (h : s.inFlight.find? (fun q => q.reqId == rid) = some r)
    (ht : isTransient resp = true) :
    (step s (Event.respond rid resp)).tracker = s.tracker ∧
      (step s (Event.respond rid resp)).notifs = s.notifs ∧
      (∃ entry, (step s (Event.respond rid resp)).logs = s.logs ++ [entry]) ∧
      (step s (Event.respond rid resp)).fetchLog = s.fetchLog ∧
      (pendingMatches s rid = false →
        (step s (Event.respond rid resp)).intervalJob = s.intervalJob) ∧
      (∀ p : PendingInfo, s.pendingStart = some p → p.reqId = rid →
        (step s (Event.respond rid resp)).intervalJob =
          some { jobId := p.jobId, userQ := p.userQ, periodMs := 5000 }) ∧
      (∀ iv : IntervalInfo, s.intervalJob = some iv → pendingMatches s rid = false →
        (step (step s (Event.respond rid resp)) Event.tick).fetchLog =
          s.fetchLog ++ [iv.jobId]) := by
  obtain ⟨entry, he⟩ := respondCore_transient (removeReq s rid) r resp ht
  rw [step_respond_found s rid r _ h, he]
  refine ⟨?_, ?_, ⟨entry, ?_⟩, ?_, ?_, ?_, ?_⟩
  · rw [(applyResume_preserves rid _).1]
    rfl
  · rw [(applyResume_preserves rid _).2.1]
    rfl
  · rw [(applyResume_preserves rid _).2.2.1]
    rfl
  · rw [(applyResume_preserves rid _).2.2.2.1]
    rfl
  · intro hpm
    have hpm2 : pendingMatches { removeReq s rid with logs := (removeReq s rid).logs ++ [entry] } rid = false := hpm
    rw [applyResume_eq_self rid _ hpm2]
    rfl
  · intro p hp hpr
    exact applyResume_interval_of_matches rid _ p hp hpr
  · intro iv hiv hpm
    have hpm2 : pendingMatches { removeReq s rid with logs := (removeReq s rid).logs ++ [entry] } rid = false := hpm
    rw [applyResume_eq_self rid _ hpm2]
    have hiv3 : (removeReq s rid).intervalJob = some iv := hiv
    simp only [step, hiv3]
    rfl


/-- Witness for C5 at a concrete state: an HTTP 500 on the second poll
changes nothing and the next tick still fetches. -/
theorem C5_transient_witness :
    (step (run initSys [Event.start "a", Event.respond 0 (PollResponse.ok genData), Event.tick])
          (Event.respond 1 (PollResponse.notOk "Internal Server Error"))).tracker =
        (run initSys [Event.start "a", Event.respond 0 (PollResponse.ok genData), Event.tick]).tracker ∧
      (step (run initSys [Event.start "a", Event.respond 0 (PollResponse.ok genData), Event.tick])
          (Event.respond 1 (PollResponse.notOk "Internal Server Error"))).notifs =
        (run initSys [Event.start "a", Event.respond 0 (PollResponse.ok genData), Event.tick]).notifs ∧
      (step (run initSys [Event.start "a", Event.respond 0 (PollResponse.ok genData), Event.tick])
          (Event.respond 1 (PollResponse.notOk "Internal Server Error"))).intervalJob =
        (run initSys [Event.start "a", Event.respond 0 (PollResponse.ok genData), Event.tick]).intervalJob ∧
      (step
          (step (run initSys [Event.start "a", Event.respond 0 (PollResponse.ok genData), Event.tick])
            (Event.respond 1 (PollResponse.notOk "Internal Server Error")))
          Event.tick).fetchLog =
        (run initSys [Event.start "a", Event.respond 0 (PollResponse.ok genData), Event.tick]).fetchLog
          ++ ["a"] := by
  have H := C5_transient_tolerated
    (run initSys [Event.start "a", Event.respond 0 (PollResponse.ok genData), Event.tick]) 1
    { reqId := 1, jobId := "a", userQ := "" } (PollResponse.notOk "Internal Server Error")
    (by decide) (by decide)
  exact ⟨H.1, H.2.1, H.2.2.2.2.1 (by decide),
    H.2.2.2.2.2.2 { jobId := "a", userQ := "", periodMs := 5000 } (by decide) (by decide)⟩

/-- C6: `startPolling` issues the first status query in the very step it
is invoked — before any timer exists — and the 5000 ms interval is
installed only when that first request resolves. -/
theorem C6_first_poll_immediate (s : Sys) (j : String)
    (hfresh : ∀ q ∈ s.inFlight, q.reqId ≠ s.nextReqId) :
    (step s (Event.start j)).fetchLog = s.fetchLog ++ [j] ∧
      (step s (Event.start j)).intervalJob = none ∧
      (step s (Event.start j)).inFlight =
        s.inFlight ++ [{ reqId := s.nextReqId, jobId := j, userQ := s.tracker.userQuery }] ∧
      ∀ resp : PollResponse,
        (step (step s (Event.start j)) (Event.respond s.nextReqId resp)).intervalJob =
          some { jobId := j, userQ := s.tracker.userQuery, periodMs := 5000 } := by
  refine ⟨by simp [step], by simp [step], by simp [step], ?_⟩
  intro resp
  have hfind :
      (step s (Event.start j)).inFlight.find? (fun q => q.reqId == s.nextReqId) =
        some { reqId := s.nextReqId, jobId := j, userQ := s.tracker.userQuery } := by
    simp only [step]
    rw [List.find?_append]
    have h1 : s.inFlight.find? (fun q => q.reqId == s.nextReqId) = none := by
      rw [List.find?_eq_none]
      intro q hq
      simpa using hfresh q hq
    rw [h1]
    simp
  rw [step_respond_found _ _ _ resp hfind]
  have hp : (respondCore (removeReq (step s (Event.start j)) s.nextReqId)
      { reqId := s.nextReqId, jobId := j, userQ := s.tracker.userQuery } resp).pendingStart =
      some { reqId := s.nextReqId, jobId := j, userQ := s.tracker.userQuery } := by
    cases resp with
    | ok d => simp [respondCore, removeReq, step]
    | notOk st => simp [respondCore, removeReq, step]
    | netError m => simp [respondCore, removeReq, step]
  exact applyResume_interval_of_matches _ _ _ hp rfl


/-- Witness for C6 from the fresh component: `startPolling("abc123")`
fetches at once with no timer; the first response installs the 5000 ms
interval. -/
theorem C6_first_poll_witness :
    (step initSys (Event.start "abc123")).fetchLog = ["abc123"] ∧
      (step initSys (Event.start "abc123")).intervalJob = none ∧
      (step (step initSys (Event.start "abc123"))
          (Event.respond 0 (PollResponse.ok genData))).intervalJob =
        some { jobId := "abc123", userQ := "", periodMs := 5000 } := by
  have H := C6_first_poll_immediate initSys "abc123" (by decide)
  exact ⟨H.1, H.2.1, H.2.2.2 (PollResponse.ok genData)⟩

/-- Dropping a prefix never lengthens a list. -/
theorem dropWhile_length_le {α : Type} (p : α → Bool) (l : List α) :
    (l.dropWhile p).length ≤ l.length := by
  induction l with
  | nil => simp [List.dropWhile]
  | cons a l ih =>
      by_cases h : p a
      · rw [List.dropWhile_cons_of_pos h]
        exact le_trans ih (by simp)
      · rw [List.dropWhile_cons_of_neg h]

/-- Trimming never lengthens a string, so a trimmed length above 500
forces the raw length above 500 as well. -/
theorem jsTrim_length_le (s : String) : (jsTrim s).length ≤ s.length := by
  show ((s.data.dropWhile Char.isWhitespace).reverse.dropWhile
      Char.isWhitespace).reverse.length ≤ s.data.length
  rw [List.length_reverse]
  refine le_trans (dropWhile_length_le _ _) ?_
  rw [List.length_reverse]
  exact dropWhile_length_le _ _

/-- C7: a theme text whose trimmed length is under 3 or over 500 makes
`handleSubmit` stop before any network call and before the signer: no
fetch and no `buildAndSignPaymentHeader` effect is emitted, and when the
wallet guard passes, the outcome is precisely the silent validation
rejection of line 185 with no effect at all. -/
theorem C7_validation_blocks (env : SubmitEnv)
    (hv : (jsTrim env.userQuery).length < 3 ∨ 500 < (jsTrim env.userQuery).length) :
    (∀ ef ∈ (handleSubmitPre env).2, isNetworkOrSigner ef = false) ∧
      (env.isConnected = true → env.address.isSome = true →
        handleSubmitPre env = (SubmitPreOutcome.validationRejected, [])) := by
  have hcond : (jsTrim env.userQuery).length < 3 ∨ env.userQuery.length > 500 := by
    cases hv with
    | inl h => exact Or.inl h
    | inr h => exact Or.inr (lt_of_lt_of_le h (jsTrim_length_le env.userQuery))
  by_cases hc : env.isConnected = true ∧ env.address.isSome = true
  · have heq : handleSubmitPre env = (SubmitPreOutcome.validationRejected, []) := by
      unfold handleSubmitPre
      rw [if_neg (not_not_intro hc), if_pos hcond]
    refine ⟨?_, fun _ _ => heq⟩
    rw [heq]
    intro ef hef
    simp at hef
  · have heq : handleSubmitPre env =
        (SubmitPreOutcome.walletNotConnected,
         [SubmitEffect.notifyError "Please connect your wallet"]) := by
      unfold handleSubmitPre
      rw [if_pos hc]
    refine ⟨?_, fun h1 h2 => absurd ⟨h1, h2⟩ hc⟩
    rw [heq]
    intro ef hef
    simp at hef
    subst hef
    rfl

set_option maxRecDepth 40000 in
/-- Witness for C7: the 501-character theme is rejected with no
effects. -/
theorem C7_validation_witness :
    handleSubmitPre env501 = (SubmitPreOutcome.validationRejected, []) ∧
      500 < (jsTrim env501.userQuery).length :=
  ⟨(C7_validation_blocks env501 (Or.inr (by decide))).2 rfl rfl, by decide⟩

/-- The fractional part printed by `toFixed2` is always two characters. -/
theorem twoDigitFrac_length (m : Nat) : (twoDigitFrac m).length = 2 := rfl

/-- Digit characters of single digits really are digits. -/
theorem digitChar_isDigit (n : Nat) (h : n < 10) : (Nat.digitChar n).isDigit = true := by
  interval_cases n <;> decide

/-- Both fractional characters printed by `toFixed2` are digits. -/
theorem twoDigitFrac_digits (m : Nat) : (twoDigitFrac m).data.all Char.isDigit = true := by
  have h1 := digitChar_isDigit (m / 10 % 10) (Nat.mod_lt _ (by norm_num))
  have h2 := digitChar_isDigit (m % 10) (Nat.mod_lt _ (by norm_num))
  simp [twoDigitFrac, h1, h2]

/-- Every `toFixed2` output ends in a dot followed by exactly two digit
characters. -/
theorem toFixed2_shape (q : ℚ) :
    ∃ pre m, toFixed2 q = pre ++ "." ++ twoDigitFrac m ∧
      (twoDigitFrac m).length = 2 ∧ (twoDigitFrac m).data.all Char.isDigit = true :=
  ⟨(if roundedCents q < 0 then "-" else "") ++ Nat.repr ((roundedCents q).natAbs / 100),
   (roundedCents q).natAbs % 100, rfl, twoDigitFrac_length _, twoDigitFrac_digits _⟩

/-- The dataroom-fetch price branch hands the signer the parsed current
price when positive, else the static base price, formatted by
`toFixed2`. -/
theorem fetchPriceBranch_amount (env : SubmitEnv) (a : String)
    (h : (fetchPriceBranch env).1 = SubmitPreOutcome.proceedToSigner a) :
    a = toFixed2 (match env.fetchedCurrentPrice with
      | some c => if c > 0 then c else env.fetchedBasePrice
      | none => env.fetchedBasePrice) ∧
      SubmitEffect.signPayment a ∈ (fetchPriceBranch env).2 := by
  unfold fetchPriceBranch at h ⊢
  by_cases hok : env.dataroomFetchOk = false
  · rw [if_pos hok] at h
    exact absurd h (by simp)
  · rw [if_neg hok] at h ⊢
    rcases hcp : env.fetchedCurrentPrice with _ | c
    · simp only [hcp, Option.getD_none] at h ⊢
      rw [if_neg (by norm_num : ¬ ((0:ℚ) > 0))] at h ⊢
      injection h with h1
      subst h1
      exact ⟨rfl, by simp⟩
    · simp only [hcp, Option.getD_some] at h ⊢
      by_cases hcpos : c > 0
      · rw [if_pos hcpos] at h ⊢
        injection h with h1
        subst h1
        exact ⟨rfl, by simp⟩
      · rw [if_neg hcpos] at h ⊢
        injection h with h1
        subst h1
        exact ⟨rfl, by simp⟩

/-- C8: whenever `handleSubmit` reaches the external signer, the amount
string it hands over is exactly the spec-worded effective price —
the quoted price when defined and positive, else the positive current
metadata price, else the static base price — formatted by `toFixed(2)`,
and that string has exactly two fractional digits. -/
theorem C8_signer_amount (env : SubmitEnv) (a : String)
    (h : (handleSubmitPre env).1 = SubmitPreOutcome.proceedToSigner a) :
    a = toFixed2 (effectivePriceSpec env.dataroomPrice env.fetchedCurrentPrice
        env.fetchedBasePrice) ∧
      SubmitEffect.signPayment a ∈ (handleSubmitPre env).2 ∧
      ∃ pre m, a = pre ++ "." ++ twoDigitFrac m ∧
        (twoDigitFrac m).length = 2 ∧ (twoDigitFrac m).data.all Char.isDigit = true := by
  unfold handleSubmitPre at h ⊢
  by_cases hc : ¬ (env.isConnected = true ∧ env.address.isSome = true)
  · rw [if_pos hc] at h
    exact absurd h (by simp)
  · rw [if_neg hc] at h ⊢
    by_cases hval : (jsTrim env.userQuery).length < 3 ∨ env.userQuery.length > 500
    · rw [if_pos hval] at h
      exact absurd h (by simp)
    · rw [if_neg hval] at h ⊢
      rcases hdp : env.dataroomPrice with _ | p
      · simp only [hdp] at h ⊢
        obtain ⟨h1, h2⟩ := fetchPriceBranch_amount env a h
        refine ⟨?_, h2, ?_⟩
        · rw [h1]
          simp only [effectivePriceSpec]
        · rw [h1]
          exact toFixed2_shape _
      · simp only [hdp] at h ⊢
        by_cases hppos : p > 0
        · rw [if_pos hppos] at h ⊢
          injection h with h1
          subst h1
          refine ⟨?_, by simp, toFixed2_shape p⟩
          simp [effectivePriceSpec, hppos]
        · rw [if_neg hppos] at h ⊢
          obtain ⟨h1, h2⟩ := fetchPriceBranch_amount env a h
          refine ⟨?_, h2, ?_⟩
          · rw [h1]
            simp only [effectivePriceSpec, if_neg hppos]
          · rw [h1]
            exact toFixed2_shape _

/-- Witness for C8: the quoted 9.99 USD environment reaches the signer
with amount string 9.99. -/
theorem C8_signer_amount_witness :
    (handleSubmitPre envQuoted).1 = SubmitPreOutcome.proceedToSigner "9.99" ∧
      ("9.99" : String) =
        toFixed2 (effectivePriceSpec envQuoted.dataroomPrice envQuoted.fetchedCurrentPrice
          envQuoted.fetchedBasePrice) ∧
      SubmitEffect.signPayment "9.99" ∈ (handleSubmitPre envQuoted).2 := by
  have H := C8_signer_amount envQuoted "9.99" (by decide)
  exact ⟨by decide, H.1, H.2.1⟩

/-- C9: for a non-numeric or non-positive amount, `authorize` fails with
`InvalidAmount` and the external signer is never invoked — its invocation
list is empty, and no other external call exists on this path. -/
theorem C9_invalid_amount (amountUsd : Option ℚ) (signer : String → SignerOutcome)
    (h : amountUsd = none ∨ ∃ q, amountUsd = some q ∧ q ≤ 0) :
    authorize amountUsd signer = (Except.error AuthFailure.invalidAmount, []) := by
  rcases h with h | ⟨q, hq, hle⟩
  · rw [h]
    rfl
  · rw [hq]
    simp [authorize, hle]

/-- Witness for C9 at the amounts -1 and non-numeric. -/
theorem C9_invalid_amount_witness :
    authorize (some (mkRat (-1) 1)) (fun _ => SignerOutcome.signed "sig") =
        (Except.error AuthFailure.invalidAmount, []) ∧
      authorize none (fun _ => SignerOutcome.signed "sig") =
        (Except.error AuthFailure.invalidAmount, []) :=
  ⟨C9_invalid_amount _ _ (Or.inr ⟨_, rfl, by decide⟩), C9_invalid_amount _ _ (Or.inl rfl)⟩

/-- Unfolding `respondCore` on a parsed response. -/
theorem respondCore_ok_eq (s1 : Sys) (r : Req) (d : HyperBlogInfo) :
    respondCore s1 r (PollResponse.ok d) =
      { s1 with
        tracker := (pollStatusOk r.jobId r.userQ s1.tracker d).tracker
        notifs := s1.notifs ++ (pollStatusOk r.jobId r.userQ s1.tracker d).notifs
        logs := s1.logs ++ (pollStatusOk r.jobId r.userQ s1.tracker d).logs
        intervalJob :=
          if (pollStatusOk r.jobId r.userQ s1.tracker d).stopped then none
          else s1.intervalJob } := rfl

/-- C10: a response whose status string is none of `generating`,
`completed`, `failed` has its raw status stored but is treated as
non-terminal: result fields, error, progress-modal flag and notification
history are untouched, and the timer is not cancelled — it is preserved,
or freshly installed when the response resolves the awaited first
poll. -/
theorem C10_unrecognized_status (s : Sys) (rid : Nat) (r : Req) (d : HyperBlogInfo)
    (h : s.inFlight.find? (fun q => q.reqId == rid) = some r)
    (hg : d.generation_status ≠ "generating")
    (hc : d.generation_status ≠ "completed")
    (hf : d.generation_status ≠ "failed") :
    (step s (Event.respond rid (PollResponse.ok d))).tracker.generationStatus =
        d.generation_status ∧
      (step s (Event.respond rid (PollResponse.ok d))).tracker.wordCount =
        s.tracker.wordCount ∧
      (step s (Event.respond rid (PollResponse.ok d))).tracker.preview = s.tracker.preview ∧
      (step s (Event.respond rid (PollResponse.ok d))).tracker.error = s.tracker.error ∧
      (step s (Event.respond rid (PollResponse.ok d))).tracker.showProgressModal =
        s.tracker.showProgressModal ∧
      (step s (Event.respond rid (PollResponse.ok d))).tracker.htnProgress =
        updatedProgress s.tracker d ∧
      (step s (Event.respond rid (PollResponse.ok d))).notifs = s.notifs ∧
      (pendingMatches s rid = false →
        (step s (Event.respond rid (PollResponse.ok d))).intervalJob = s.intervalJob) ∧
      (∀ p : PendingInfo, s.pendingStart = some p → p.reqId = rid →
        (step s (Event.respond rid (PollResponse.ok d))).intervalJob =
          some { jobId := p.jobId, userQ := p.userQ, periodMs := 5000 }) := by
  rw [step_respond_found s rid r _ h, respondCore_ok_eq,
    pollStatusOk_other r.jobId r.userQ (removeReq s rid).tracker d hg hc hf]
  refine ⟨?_, ?_, ?_, ?_, ?_, ?_, ?_, ?_, ?_⟩
  · rw [(applyResume_preserves rid _).1]
  · rw [(applyResume_preserves rid _).1]
    rfl
  · rw [(applyResume_preserves rid _).1]
    rfl
  · rw [(applyResume_preserves rid _).1]
    rfl
  · rw [(applyResume_preserves rid _).1]
    rfl
  · rw [(applyResume_preserves rid _).1]
    rfl
  · rw [(applyResume_preserves rid _).2.1]
    simp [removeReq]
  · intro hpm
    have hpm2 : pendingMatches
        { removeReq s rid with
          tracker :=
            { (removeReq s rid).tracker with
              generationStatus := d.generation_status
              htnProgress := updatedProgress (removeReq s rid).tracker d }
          notifs := (removeReq s rid).notifs ++ []
          logs := (removeReq s rid).logs ++ htnLogs d
          intervalJob := if false = true then none else (removeReq s rid).intervalJob } rid =
        false := hpm
    rw [applyResume_eq_self rid _ hpm2]
    rfl
  · intro p hp hpr
    exact applyResume_interval_of_matches rid _ p hp hpr

/-- Witness for C10: a `queued` status on the second poll is stored raw,
emits nothing, and leaves the interval in place. -/
theorem C10_unrecognized_status_witness :
    (step (run initSys [Event.start "a", Event.respond 0 (PollResponse.ok genData), Event.tick])
          (Event.respond 1 (PollResponse.ok queuedData))).tracker.generationStatus = "queued" ∧
      (step (run initSys [Event.start "a", Event.respond 0 (PollResponse.ok genData), Event.tick])
          (Event.respond 1 (PollResponse.ok queuedData))).notifs =
        (run initSys [Event.start "a", Event.respond 0 (PollResponse.ok genData),
          Event.tick]).notifs ∧
      (step (run initSys [Event.start "a", Event.respond 0 (PollResponse.ok genData), Event.tick])
          (Event.respond 1 (PollResponse.ok queuedData))).intervalJob =
        (run initSys [Event.start "a", Event.respond 0 (PollResponse.ok genData),
          Event.tick]).intervalJob := by
  have H := C10_unrecognized_status
    (run initSys [Event.start "a", Event.respond 0 (PollResponse.ok genData), Event.tick]) 1
    { reqId := 1, jobId := "a", userQ := "" } queuedData
    (by decide) (by decide) (by decide) (by decide)
  exact ⟨H.1, H.2.2.2.2.2.2.1, H.2.2.2.2.2.2.2.1 (by decide)⟩

end SantaBonfire
